import Mathlib

/-!
Verification of the structured-query-to-domain compiler of an Odoo MCP
server (`src/app/utils/tools/odoo/crud_operations/smart_search.ts`).

The compiler translates a structured query object
`{ logic: "AND" | "OR" | "NOT", conditions: [...] }` into a flat Odoo
domain array in prefix notation, where `"|"` and `"!"` are logical
marker tokens and each condition becomes a 3-element array
`[field, operator, value]`.

JavaScript values appearing in a domain array are embedded as `JSVal`:
strings, numbers, booleans, `undefined`, and (nested) arrays.
-/

/-- A JavaScript value as it can appear in a query or a compiled domain
array: string, number, boolean, `undefined`, or an array of values. -/
inductive JSVal where
  | vStr (s : String)
  | vNum (n : Int)
  | vBool (b : Bool)
  | vUndefined
  | vArr (xs : List JSVal)

/-- A condition leaf `{ field, operator, value }` as raw JavaScript data.
The zod schema types `field` and `operator` as strings and `value` as
`z.any()`, but `convertQueryToDomain` performs no validation, so each
component is an arbitrary `JSVal` (`vUndefined` models a missing key). -/
structure Condition where
  field : JSVal
  operator : JSVal
  value : JSVal

/-- A condition conforms to the zod `conditionSchema` when `field` and
`operator` are strings (the schema requires `z.string()` for both). -/
def Condition.schemaValid (c : Condition) : Bool :=
  (match c.field with | .vStr _ => true | _ => false) &&
  (match c.operator with | .vStr _ => true | _ => false)

/-- The 3-element array `[condition.field, condition.operator,
condition.value]` pushed onto the domain for a condition. -/
def condTuple (c : Condition) : JSVal :=
  .vArr [c.field, c.operator, c.value]

/-- The logical-operator marker tokens the compiler emits before the
condition tuples: for `logic === "OR"` a `"|"` is pushed once per
condition except the last (`n - 1` markers), for `logic === "NOT"` a
single `"!"` is pushed, and for any other logic (AND is Odoo's default)
nothing is pushed. -/
def markers (logic : String) (n : Nat) : List JSVal :=
  if logic = "OR" then List.replicate (n - 1) (JSVal.vStr "|")
  else if logic = "NOT" then [JSVal.vStr "!"]
  else []

/-- The `query` argument of `convertQueryToDomain`: a logic string and a
conditions array that may be absent (`none` models JavaScript
`undefined`, caught by the `!conditions` guard). -/
structure QueryInput where
  logic : String
  conditions : Option (List Condition)

/-- `convertQueryToDomain` (smart_search.ts lines 312-352): empty or
missing `conditions` yields `[]`; a single condition yields just its
tuple regardless of `logic`; otherwise the logic markers are emitted
followed by every condition tuple in input order. -/
def convertQueryToDomain (query : QueryInput) : List JSVal :=
  match query.conditions with
  | none => []
  | some [] => []
  | some [c] => [condTuple c]
  | some cs => markers query.logic cs.length ++ cs.map condTuple

/-- A node of the recursive query structure handled by
`convertComplexQueryToDomain`: either a condition leaf or a group
`{ logic, conditions }` whose conditions are themselves nodes. -/
inductive QueryNode where
  | leaf (c : Condition)
  | grp (logic : String) (conditions : List QueryNode)

/-- `x !== undefined`: true for every JavaScript value except
`undefined`. -/
def isDefined : JSVal → Bool
  | .vUndefined => false
  | _ => true

/-- Reading `.field` off a query element: a condition leaf exposes its
`field` value, while a group object has no `field` key, so the access
yields `undefined`. The compiler tests `conditions[0].field !==
undefined` to detect simple conditions. -/
def fieldAttr : QueryNode → JSVal
  | .leaf c => c.field
  | .grp _ _ => .vUndefined

/-- Reading `.operator` off a query element (undefined on groups). -/
def operatorAttr : QueryNode → JSVal
  | .leaf c => c.operator
  | .grp _ _ => .vUndefined

/-- Reading `.value` off a query element (undefined on groups). -/
def valueAttr : QueryNode → JSVal
  | .leaf c => c.value
  | .grp _ _ => .vUndefined

/-- The tuple `[condition.field, condition.operator, condition.value]`
pushed for an element in the simple-condition branch of the recursive
compiler (components are `undefined` when absent). -/
def nodeTuple (n : QueryNode) : JSVal :=
  .vArr [fieldAttr n, operatorAttr n, valueAttr n]

mutual

/-- `convertComplexQueryToDomain` (smart_search.ts lines 628-695), the
recursive compiler. Destructuring a condition leaf as
`{ logic, conditions }` leaves `conditions` undefined, so the empty
branch returns `[]`. On a group, `conditions[0].field !== undefined`
selects the simple branch (markers then one tuple per element);
otherwise a single nested element is compiled directly, and several
nested elements are compiled recursively and spliced after the
markers. -/
def convertComplexQueryToDomain : QueryNode → List JSVal
  | .leaf _ => []
  | .grp _ [] => []
  | .grp logic (c0 :: rest) =>
    if isDefined (fieldAttr c0) then
      match rest with
      | [] => [nodeTuple c0]
      | _ :: _ =>
        markers logic (c0 :: rest).length ++ (c0 :: rest).map nodeTuple
    else
      match rest with
      | [] => convertComplexQueryToDomain c0
      | _ :: _ =>
        markers logic (c0 :: rest).length ++ spliceAll (c0 :: rest)

/-- `domain.push(...convertComplexQueryToDomain(group))` applied to each
nested group in order: the concatenation of the recursively compiled
sub-domains. -/
def spliceAll : List QueryNode → List JSVal
  | [] => []
  | n :: ns => convertComplexQueryToDomain n ++ spliceAll ns

end

/-- The error message both public entry points return when no usable
conditions are supplied. -/
def noConditionsMsg : String :=
  "No conditions provided. Please specify at least one condition."

/-- How far an entry point gets before its first remote call: either it
returns early with a failure result carrying an error message, or it
reaches `client.call(..., 'search_count', domain)` with the compiled
domain. The two handlers serialize their results differently (plain
object vs. MCP text content), but the guard, the message and the domain
they pass on are what the claims are about. -/
inductive StepOutcome where
  | earlyFailure (error : String)
  | callSearch (domain : List JSVal)

/-- The guard-and-compile prefix of `smart_search.execute`
(smart_search.ts lines 193-207): when the query is absent, its
`conditions` missing, or `conditions.length === 0`, it returns a
`success: false` result with `noConditionsMsg` before any remote call;
otherwise it compiles the query and calls `search_count` with the
resulting domain. -/
def smart_search_execute (query : Option QueryInput) : StepOutcome :=
  match query with
  | none => .earlyFailure noConditionsMsg
  | some q =>
    match q.conditions with
    | none => .earlyFailure noConditionsMsg
    | some [] => .earlyFailure noConditionsMsg
    | some _ => .callSearch (convertQueryToDomain q)

/-- The guard-and-compile prefix of the MCP callback `smartSearch`
(smart_search.ts lines 419-441): the identical validation, returning a
text-content failure result carrying `noConditionsMsg` before any
remote call, else compiling the query and calling `search_count`. -/
def smartSearch (query : Option QueryInput) : StepOutcome :=
  match query with
  | none => .earlyFailure noConditionsMsg
  | some q =>
    match q.conditions with
    | none => .earlyFailure noConditionsMsg
    | some [] => .earlyFailure noConditionsMsg
    | some _ => .callSearch (convertQueryToDomain q)

/-- The validation predicate `!query || !query.conditions ||
query.conditions.length === 0` shared by both entry points. -/
def queryInvalid : Option QueryInput → Bool
  | none => true
  | some q =>
    match q.conditions with
    | none => true
    | some cs => cs.isEmpty

/-! ## Helper lemmas -/

/-- The markers for any logic are drawn from `"|"` and `"!"`. -/
theorem markers_mem (logic : String) (n : Nat) :
    ∀ e ∈ markers logic n, e = JSVal.vStr "|" ∨ e = JSVal.vStr "!" := by
  intro e he
  unfold markers at he
  split at he
  · exact Or.inl (List.eq_of_mem_replicate he)
  · split at he
    · simp only [List.mem_singleton] at he
      exact Or.inr he
    · simp at he

/-- A query with at least one condition always compiles to a non-empty
domain. -/
theorem convertQueryToDomain_ne_nil (logic : String) (c : Condition)
    (cs : List Condition) :
    convertQueryToDomain ⟨logic, some (c :: cs)⟩ ≠ [] := by
  cases cs with
  | nil => simp [convertQueryToDomain]
  | cons c2 rest => simp [convertQueryToDomain]

/-- Splicing is the flattened image of the recursive compiler over the
list of sub-nodes. -/
theorem spliceAll_eq_flatten (l : List QueryNode) :
    spliceAll l = (l.map convertComplexQueryToDomain).flatten := by
  induction l with
  | nil => simp [spliceAll]
  | cons n ns ih => simp [spliceAll, ih]

/-- A schema-valid condition has a defined (string) `field`, so the
simple-condition detection test accepts it. -/
theorem isDefined_of_schemaValid (c : Condition) (h : c.schemaValid = true) :
    isDefined c.field = true := by
  obtain ⟨f, o, v⟩ := c
  cases f <;> first
    | rfl
    | exact absurd h (by simp [Condition.schemaValid])

/-! ## C1 -/

/-- Claim C1 as stated is false at its own scenario: compiling
`{logic:"NOT", conditions:[{field:"email",operator:"=",value:false}]}`
takes the single-condition branch, which runs before any NOT handling,
so the result is `[["email","=",false]]` with no `"!"` marker, not
`["!",["email","=",false]]`. -/
theorem convertQueryToDomain_not_single_counterexample :
    convertQueryToDomain
        ⟨"NOT", some [⟨.vStr "email", .vStr "=", .vBool false⟩]⟩ =
      [JSVal.vArr [.vStr "email", .vStr "=", .vBool false]] ∧
    [JSVal.vArr [.vStr "email", .vStr "=", .vBool false]] ≠
      [JSVal.vStr "!", JSVal.vArr [.vStr "email", .vStr "=", .vBool false]] := by
  refine ⟨rfl, ?_⟩
  intro h
  simpa using congrArg List.length h

/-- Claim C1 (amended): for every NOT group with N≥2 conditions, the
compiler emits one `"!"` marker followed by all N condition 3-tuples in
input order; a NOT group with exactly one condition instead yields just
that condition's tuple with no marker. -/
theorem convertQueryToDomain_not (cs : List Condition) (h : 2 ≤ cs.length) :
    convertQueryToDomain ⟨"NOT", some cs⟩ = JSVal.vStr "!" :: cs.map condTuple := by
  match cs with
  | c1 :: c2 :: rest => rfl

/-- Witness for the amended C1 at a concrete two-condition NOT group. -/
theorem convertQueryToDomain_not_witness :
    convertQueryToDomain
        ⟨"NOT", some [⟨.vStr "a", .vStr "=", .vNum 1⟩,
                      ⟨.vStr "b", .vStr "=", .vNum 2⟩]⟩ =
      JSVal.vStr "!" ::
        [Condition.mk (.vStr "a") (.vStr "=") (.vNum 1),
         Condition.mk (.vStr "b") (.vStr "=") (.vNum 2)].map condTuple :=
  convertQueryToDomain_not _ (by decide)

/-! ## C2 -/

/-- Claim C2: for every OR group with N≥2 conditions, the compiled
domain is exactly N-1 `"|"` marker tokens followed by the N condition
3-tuples in their original input order. -/
theorem convertQueryToDomain_or (cs : List Condition) (h : 2 ≤ cs.length) :
    convertQueryToDomain ⟨"OR", some cs⟩ =
      List.replicate (cs.length - 1) (JSVal.vStr "|") ++ cs.map condTuple := by
  match cs with
  | c1 :: c2 :: rest => rfl

/-- Witness for C2 at a concrete two-condition OR group. -/
theorem convertQueryToDomain_or_witness :
    convertQueryToDomain
        ⟨"OR", some [⟨.vStr "country_id", .vStr "=", .vNum 186⟩,
                     ⟨.vStr "country_id", .vStr "=", .vNum 38⟩]⟩ =
      List.replicate
          ([Condition.mk (.vStr "country_id") (.vStr "=") (.vNum 186),
            Condition.mk (.vStr "country_id") (.vStr "=") (.vNum 38)].length - 1)
          (JSVal.vStr "|") ++
        [Condition.mk (.vStr "country_id") (.vStr "=") (.vNum 186),
         Condition.mk (.vStr "country_id") (.vStr "=") (.vNum 38)].map condTuple :=
  convertQueryToDomain_or _ (by decide)

/-! ## C3 -/

/-- Claim C3: a group with exactly one condition compiles to exactly
that condition's 3-tuple with no markers, whatever the logic string is
(in particular for each of "AND", "OR" and "NOT"). -/
theorem convertQueryToDomain_single (logic : String) (c : Condition) :
    convertQueryToDomain ⟨logic, some [c]⟩ = [condTuple c] := rfl

/-! ## C4 -/

/-- Claim C4: for every AND group with N≥2 conditions, the compiled
domain is exactly the N condition 3-tuples in input order with no
marker tokens interspersed (so its length is exactly N). -/
theorem convertQueryToDomain_and (cs : List Condition) (h : 2 ≤ cs.length) :
    convertQueryToDomain ⟨"AND", some cs⟩ = cs.map condTuple := by
  match cs with
  | c1 :: c2 :: rest => rfl

/-- Witness for C4 at a concrete two-condition AND group. -/
theorem convertQueryToDomain_and_witness :
    convertQueryToDomain
        ⟨"AND", some [⟨.vStr "active", .vStr "=", .vBool true⟩,
                      ⟨.vStr "country_id", .vStr "=", .vNum 186⟩]⟩ =
      [Condition.mk (.vStr "active") (.vStr "=") (.vBool true),
       Condition.mk (.vStr "country_id") (.vStr "=") (.vNum 186)].map condTuple :=
  convertQueryToDomain_and _ (by decide)

/-! ## C7 -/

/-- Claim C7: a group whose conditions array is empty (or missing)
compiles to the empty domain, under every logic value, with no error
raised (the function is total). -/
theorem convertQueryToDomain_empty (logic : String) :
    convertQueryToDomain ⟨logic, some []⟩ = [] ∧
    convertQueryToDomain ⟨logic, none⟩ = [] :=
  ⟨rfl, rfl⟩

/-! ## C8 -/

/-- Claim C8: the compiler performs no validation of condition leaves:
every condition in the group, including one whose `field`, `operator`
or `value` is missing (`undefined`), contributes its 3-tuple
`[field, operator, value]` to the output, with the missing components
propagated as `undefined`. -/
theorem convertQueryToDomain_no_validation (logic : String)
    (cs : List Condition) (c : Condition) (h : c ∈ cs) :
    condTuple c ∈ convertQueryToDomain ⟨logic, some cs⟩ := by
  match cs with
  | [c1] =>
    rcases List.mem_singleton.mp h with rfl
    exact List.mem_singleton.mpr rfl
  | c1 :: c2 :: rest =>
    have : convertQueryToDomain ⟨logic, some (c1 :: c2 :: rest)⟩ =
        markers logic (c1 :: c2 :: rest).length ++
          (c1 :: c2 :: rest).map condTuple := rfl
    rw [this]
    exact List.mem_append_right _ (List.mem_map_of_mem condTuple h)

/-- Witness for C8: a condition missing its `field` (undefined) still
yields the tuple `[undefined, "=", 1]` in the output. -/
theorem convertQueryToDomain_no_validation_witness :
    condTuple ⟨.vUndefined, .vStr "=", .vNum 1⟩ ∈
      convertQueryToDomain
        ⟨"AND", some [⟨.vUndefined, .vStr "=", .vNum 1⟩,
                      ⟨.vStr "b", .vStr "=", .vNum 2⟩]⟩ :=
  convertQueryToDomain_no_validation "AND" _ _ (List.mem_cons_self _ _)

/-! ## C5 -/

/-- Claim C5: on a flat, single-level group whose conditions are all
schema-valid leaf Conditions, the recursive compiler
`convertComplexQueryToDomain` produces exactly the same token sequence
as the production compiler `convertQueryToDomain`. -/
theorem convertComplex_refines_flat (logic : String) (cs : List Condition)
    (h : ∀ c ∈ cs, c.schemaValid = true) :
    convertComplexQueryToDomain (.grp logic (cs.map .leaf)) =
      convertQueryToDomain ⟨logic, some cs⟩ := by
  match cs with
  | [] => rfl
  | [c] =>
    have hd := isDefined_of_schemaValid c (h c (by simp))
    simp [convertComplexQueryToDomain, convertQueryToDomain, fieldAttr,
      operatorAttr, valueAttr, nodeTuple, condTuple, hd]
  | c1 :: c2 :: rest =>
    have hd := isDefined_of_schemaValid c1 (h c1 (by simp))
    simp [convertComplexQueryToDomain, convertQueryToDomain, fieldAttr,
      operatorAttr, valueAttr, nodeTuple, condTuple, hd, List.map_map,
      Function.comp]

/-- Witness for C5 at a concrete two-condition OR group. -/
theorem convertComplex_refines_flat_witness :
    (∀ c ∈ [Condition.mk (.vStr "a") (.vStr "=") (.vNum 1),
            Condition.mk (.vStr "b") (.vStr "=") (.vNum 2)],
        c.schemaValid = true) ∧
    convertComplexQueryToDomain
        (.grp "OR" ([Condition.mk (.vStr "a") (.vStr "=") (.vNum 1),
                     Condition.mk (.vStr "b") (.vStr "=") (.vNum 2)].map .leaf)) =
      convertQueryToDomain
        ⟨"OR", some [Condition.mk (.vStr "a") (.vStr "=") (.vNum 1),
                     Condition.mk (.vStr "b") (.vStr "=") (.vNum 2)]⟩ :=
  ⟨by decide, convertComplex_refines_flat "OR" _ (by decide)⟩

/-! ## C6 -/

/-- Claim C6: a group of k≥2 nested sub-groups under OR compiles to
k-1 `"|"` markers followed by the concatenation, in input order, of the
recursively compiled token sequences of the sub-groups. -/
theorem convertComplex_or_nested (subs : List (String × List QueryNode))
    (h : 2 ≤ subs.length) :
    convertComplexQueryToDomain
        (.grp "OR" (subs.map (fun p => QueryNode.grp p.1 p.2))) =
      List.replicate (subs.length - 1) (JSVal.vStr "|") ++
        (subs.map (fun p =>
          convertComplexQueryToDomain (QueryNode.grp p.1 p.2))).flatten := by
  match subs with
  | p1 :: p2 :: rest =>
    simp [convertComplexQueryToDomain, fieldAttr, isDefined, markers,
      spliceAll_eq_flatten, List.map_map, Function.comp_def]

/-- Witness for C6 at two concrete single-condition AND sub-groups. -/
theorem convertComplex_or_nested_witness :
    2 ≤ ([("AND", [QueryNode.leaf ⟨.vStr "a", .vStr "=", .vNum 1⟩]),
          ("AND", [QueryNode.leaf ⟨.vStr "b", .vStr "=", .vNum 2⟩])] :
        List (String × List QueryNode)).length ∧
    convertComplexQueryToDomain
        (.grp "OR"
          (([("AND", [QueryNode.leaf ⟨.vStr "a", .vStr "=", .vNum 1⟩]),
             ("AND", [QueryNode.leaf ⟨.vStr "b", .vStr "=", .vNum 2⟩])] :
            List (String × List QueryNode)).map
              (fun p => QueryNode.grp p.1 p.2))) =
      List.replicate
          (([("AND", [QueryNode.leaf ⟨.vStr "a", .vStr "=", .vNum 1⟩]),
             ("AND", [QueryNode.leaf ⟨.vStr "b", .vStr "=", .vNum 2⟩])] :
            List (String × List QueryNode)).length - 1)
          (JSVal.vStr "|") ++
        (([("AND", [QueryNode.leaf ⟨.vStr "a", .vStr "=", .vNum 1⟩]),
           ("AND", [QueryNode.leaf ⟨.vStr "b", .vStr "=", .vNum 2⟩])] :
          List (String × List QueryNode)).map
            (fun p => convertComplexQueryToDomain (QueryNode.grp p.1 p.2))).flatten :=
  ⟨by decide, convertComplex_or_nested _ (by decide)⟩

/-! ## C9 -/

/-- The shape guarantee for one output element: it is the `"|"` marker,
the `"!"` marker, or a 3-element `[field, operator, value]` array. -/
def tokenShape (e : JSVal) : Prop :=
  e = .vStr "|" ∨ e = .vStr "!" ∨ ∃ f o v, e = .vArr [f, o, v]

/-- Markers are well-shaped tokens. -/
theorem tokenShape_markers (logic : String) (n : Nat) :
    ∀ e ∈ markers logic n, tokenShape e := by
  intro e he
  rcases markers_mem logic n e he with h | h
  · exact Or.inl h
  · exact Or.inr (Or.inl h)

/-- Condition tuples of the recursive compiler are well-shaped tokens. -/
theorem tokenShape_nodeTuple (n : QueryNode) : tokenShape (nodeTuple n) :=
  Or.inr (Or.inr ⟨_, _, _, rfl⟩)

mutual

/-- Every element the recursive compiler emits is a marker or a
3-tuple. -/
theorem tokenShape_convert :
    ∀ (g : QueryNode), ∀ e ∈ convertComplexQueryToDomain g, tokenShape e
  | .leaf _ => by simp [convertComplexQueryToDomain]
  | .grp logic [] => by simp [convertComplexQueryToDomain]
  | .grp logic [c0] => by
    intro e he
    simp only [convertComplexQueryToDomain] at he
    split at he
    · rcases List.mem_singleton.mp he with rfl
      exact tokenShape_nodeTuple c0
    · exact tokenShape_convert c0 e he
  | .grp logic (c0 :: c1 :: rest) => by
    intro e he
    simp only [convertComplexQueryToDomain] at he
    split at he
    · rcases List.mem_append.mp he with h | h
      · exact tokenShape_markers _ _ e h
      · rcases List.mem_map.mp h with ⟨n, _, rfl⟩
        exact tokenShape_nodeTuple n
    · rcases List.mem_append.mp he with h | h
      · exact tokenShape_markers _ _ e h
      · exact tokenShape_splice (c0 :: c1 :: rest) e h

/-- Every element of a spliced sub-domain list is a marker or a
3-tuple. -/
theorem tokenShape_splice :
    ∀ (l : List QueryNode), ∀ e ∈ spliceAll l, tokenShape e
  | [] => by simp [spliceAll]
  | n :: ns => by
    intro e he
    simp only [spliceAll] at he
    rcases List.mem_append.mp he with h | h
    · exact tokenShape_convert n e h
    · exact tokenShape_splice ns e h

end

/-- Claim C9: for every input, every element of the compiled output of
both the production compiler and the recursive compiler is either the
token `"|"`, the token `"!"`, or a 3-element `[field, operator, value]`
array — a flat token sequence with no nesting beyond the inner
3-tuples. -/
theorem domain_token_shape (q : QueryInput) (g : QueryNode) :
    (∀ e ∈ convertQueryToDomain q, tokenShape e) ∧
    (∀ e ∈ convertComplexQueryToDomain g, tokenShape e) := by
  refine ⟨?_, tokenShape_convert g⟩
  obtain ⟨logic, conds⟩ := q
  intro e he
  match conds with
  | none => simp [convertQueryToDomain] at he
  | some [] => simp [convertQueryToDomain] at he
  | some [c] =>
    rcases List.mem_singleton.mp he with rfl
    exact Or.inr (Or.inr ⟨_, _, _, rfl⟩)
  | some (c1 :: c2 :: rest) =>
    rcases List.mem_append.mp he with h | h
    · exact tokenShape_markers _ _ e h
    · rcases List.mem_map.mp h with ⟨c, _, rfl⟩
      exact Or.inr (Or.inr ⟨_, _, _, rfl⟩)

/-- Witness for C9: the first output token of a concrete OR query is
well shaped. -/
theorem domain_token_shape_witness : tokenShape (JSVal.vStr "|") :=
  (domain_token_shape
      ⟨"OR", some [⟨.vStr "a", .vStr "=", .vNum 1⟩,
                   ⟨.vStr "b", .vStr "=", .vNum 2⟩]⟩
      (.leaf ⟨.vStr "a", .vStr "=", .vNum 1⟩)).1
    (JSVal.vStr "|")
    (by simp [convertQueryToDomain, markers])

/-! ## C10 -/

/-- Claim C10: for every tool-layer input whose query is absent, whose
conditions are missing, or whose conditions array is empty, both public
entry points return the failure result carrying `noConditionsMsg`
before the compiler is invoked; and whenever either entry point does
reach the remote search call, the domain it sends is non-empty. -/
theorem entry_guards_empty_query (q : Option QueryInput) :
    (queryInvalid q = true →
      smart_search_execute q = .earlyFailure noConditionsMsg ∧
      smartSearch q = .earlyFailure noConditionsMsg) ∧
    (∀ d, smart_search_execute q = .callSearch d → d ≠ []) ∧
    (∀ d, smartSearch q = .callSearch d → d ≠ []) := by
  match q with
  | none =>
    refine ⟨fun _ => ⟨rfl, rfl⟩, ?_, ?_⟩ <;> intro d hd <;> cases hd
  | some ⟨logic, none⟩ =>
    refine ⟨fun _ => ⟨rfl, rfl⟩, ?_, ?_⟩ <;> intro d hd <;> cases hd
  | some ⟨logic, some []⟩ =>
    refine ⟨fun _ => ⟨rfl, rfl⟩, ?_, ?_⟩ <;> intro d hd <;> cases hd
  | some ⟨logic, some (c :: cs)⟩ =>
    refine ⟨fun hinv => by simp [queryInvalid] at hinv, ?_, ?_⟩
    · intro d hd
      have h1 : StepOutcome.callSearch
          (convertQueryToDomain ⟨logic, some (c :: cs)⟩) = .callSearch d := hd
      rw [← StepOutcome.callSearch.inj h1]
      exact convertQueryToDomain_ne_nil logic c cs
    · intro d hd
      have h1 : StepOutcome.callSearch
          (convertQueryToDomain ⟨logic, some (c :: cs)⟩) = .callSearch d := hd
      rw [← StepOutcome.callSearch.inj h1]
      exact convertQueryToDomain_ne_nil logic c cs

/-- Witness for C10: the concrete empty-conditions query is rejected by
both entry points with the exact message. -/
theorem entry_guards_empty_query_witness :
    smart_search_execute (some ⟨"AND", some []⟩) = .earlyFailure noConditionsMsg ∧
    smartSearch (some ⟨"AND", some []⟩) = .earlyFailure noConditionsMsg :=
  (entry_guards_empty_query (some ⟨"AND", some []⟩)).1 rfl
